import Mathlib

/-!
Verification development for the cmake-package-builder repository.

The repository consists of two Conan recipes:
  * `src/conanfile.py` — class `CMakePackageBuilderConan`, the package recipe;
  * `src/test_package/conanfile.py` — class `CMakePackageBuilderTestConan`,
    the downstream test recipe.

Both recipes are declarative glue: static metadata fields plus lifecycle
methods that delegate to the external CMake tool.  The shallow embedding
below models:
  * the static metadata fields as a Lean structure holding the literal
    values from `src/conanfile.py`;
  * `cpp_info` as a record of the fields the recipe touches, with
    `set_property` modelled as first-match-wins association-list update;
  * each lifecycle method as an explicit state/trace transformer, where
    an external tool invocation is a `Step` whose outcome (success, or a
    diagnostic string) is supplied by an environment;
  * the `exports_sources` patterns with fnmatch-style matching, where `*`
    matches any character sequence including the path separator (Python
    `fnmatch` semantics, which Conan uses for export patterns).
-/

namespace CMakePackageBuilder

/-- The `cpp_info` consumption metadata object of a Conan recipe, restricted
to the fields the repository mentions: library names (`libs`), include
directories, build directories, and the string-valued property map set via
`set_property`.  Properties are an association list; lookup takes the first
match, so a later `set_property` shadows an earlier binding of the same key. -/
structure CppInfo where
  libs : List String
  includedirs : List String
  builddirs : List String
  properties : List (String × String)
deriving Repr, DecidableEq

/-- `self.cpp_info.set_property(key, value)`: bind `key` to `value`,
shadowing any previous binding of that key. -/
def CppInfo.set_property (c : CppInfo) (k v : String) : CppInfo :=
  { c with properties := (k, v) :: c.properties }

/-- Property lookup, first match wins (Conan keeps one value per key; the
embedding realises overwriting via shadowing). -/
def CppInfo.get_property (c : CppInfo) (k : String) : Option String :=
  c.properties.lookup k

/-- The default `cpp_info` Conan hands to `package_info`: no libraries, the
conventional include directory, no build directories, no properties. -/
def defaultCppInfo : CppInfo :=
  { libs := [], includedirs := ["include"], builddirs := [], properties := [] }

/-- The static metadata fields declared at class level in
`CMakePackageBuilderConan` (src/conanfile.py lines 5–13). -/
structure RecipeMeta where
  name : String
  license : String
  author : String
  url : String
  description : String
  package_type : String
  settings : List String
  exports_sources : List String
deriving Repr, DecidableEq

/-- The literal metadata of `CMakePackageBuilderConan`. -/
def recipeMeta : RecipeMeta :=
  { name := "cmake-package-builder"
    license := "MIT"
    author := "TNT Coders <tnt-coders@googlegroups.com>"
    url := "https://github.com/tnt-coders/cmake-package-builder"
    description := "CMake utility functions for simplified project setup/installation"
    package_type := "build-scripts"
    settings := ["os", "compiler", "build_type", "arch"]
    exports_sources := ["CMakeLists.txt", "cmake/*", "project-config/*", "LICENSE"] }

/-- `def package_info(self)` of `CMakePackageBuilderConan`
(src/conanfile.py lines 34–37):
`self.cpp_info.builddirs = [os.path.join("lib", "cmake", "PackageBuilder")]`,
then `set_property("cmake_find_mode", "config")`,
then `set_property("cmake_file_name", "PackageBuilder")`.
`os.path.join` with the POSIX separator yields `lib/cmake/PackageBuilder`. -/
def package_info (c : CppInfo) : CppInfo :=
  let c1 := { c with builddirs := ["lib/cmake/PackageBuilder"] }
  let c2 := c1.set_property "cmake_find_mode" "config"
  c2.set_property "cmake_file_name" "PackageBuilder"

/-- An external tool invocation performed by the recipes: the two generators
emitted by `generate`, and the three CMake lifecycle delegations. -/
inductive Step where
  | toolchainGenerate
  | depsGenerate
  | configure
  | buildStep
  | install
deriving Repr, DecidableEq

/-- Outcomes of the external invocations, supplied per run: `none` means the
external tool returned success, `some d` means it failed with diagnostic
output `d`.  The recipe code sees these only through raised exceptions. -/
structure Env where
  toolchain_outcome : Option String
  deps_outcome : Option String
  configure_outcome : Option String
  build_outcome : Option String
  install_outcome : Option String
deriving Repr, DecidableEq

/-- The outcome the environment assigns to one step. -/
def Env.outcome (env : Env) : Step → Option String
  | .toolchainGenerate => env.toolchain_outcome
  | .depsGenerate => env.deps_outcome
  | .configure => env.configure_outcome
  | .buildStep => env.build_outcome
  | .install => env.install_outcome

/-- Run a sequence of external invocations as straight-line Python code does:
each call blocks, and the first failure raises, abandoning the rest.  The
result is the trace of invocations actually performed together with the
diagnostic of the failing call, if any — carried verbatim, never rewritten. -/
def execSeq (env : Env) : List Step → List Step × Option String
  | [] => ([], none)
  | s :: rest =>
    match env.outcome s with
    | some d => ([s], some d)
    | none =>
      let r := execSeq env rest
      (s :: r.1, r.2)

/-- `def generate(self)` (src/conanfile.py lines 18–23):
`CMakeToolchain(self).generate()` then `CMakeDeps(self).generate()`. -/
def generate (env : Env) : List Step × Option String :=
  execSeq env [.toolchainGenerate, .depsGenerate]

/-- `def build(self)` (src/conanfile.py lines 25–28):
`cmake = CMake(self); cmake.configure(); cmake.build()`. -/
def build (env : Env) : List Step × Option String :=
  execSeq env [.configure, .buildStep]

/-- `def package(self)` (src/conanfile.py lines 30–32):
`cmake = CMake(self); cmake.install()`. -/
def package (env : Env) : List Step × Option String :=
  execSeq env [.install]

/-- A packaging run: Conan drives the lifecycle methods in order
`generate`, `build`, `package`; an exception escaping any method aborts
the run, and no recipe method contains a handler.  The result is the
full trace of external invocations and the propagated diagnostic, if any. -/
def packagingRun (env : Env) : List Step × Option String :=
  let g := generate env
  match g.2 with
  | some d => (g.1, some d)
  | none =>
    let b := build env
    match b.2 with
    | some d => (g.1 ++ b.1, some d)
    | none =>
      let p := package env
      (g.1 ++ b.1 ++ p.1, p.2)

/-- An environment in which every external invocation succeeds. -/
def allOkEnv : Env :=
  { toolchain_outcome := none, deps_outcome := none, configure_outcome := none
    build_outcome := none, install_outcome := none }

/-- Outcomes of the external invocations made during a run of the downstream
test recipe: resolution of the tested reference by `self.requires`, and the
`cmake.configure()` call of the test recipe's `build` method. -/
structure TestEnv where
  resolve_outcome : Option String
  configure_outcome : Option String
deriving Repr, DecidableEq

/-- `def test(self): pass` of `CMakePackageBuilderTestConan`
(src/test_package/conanfile.py lines 20–21): the method body is `pass`;
it raises nothing, so its outcome is always success. -/
def test_method : Option String := none

/-- A run of the downstream test recipe: `requirements` resolves the tested
reference, `build` configures the consumer project, `test` runs last.  The
run succeeds iff no stage raised. -/
def testPackageRun (env : TestEnv) : Bool :=
  match env.resolve_outcome with
  | some _ => false
  | none =>
    match env.configure_outcome with
    | some _ => false
    | none => test_method.isNone

/-- fnmatch-style matching on character lists, for the fragment Conan needs
for this recipe's export patterns: a literal character matches itself and
`*` matches any sequence of characters, including the path separator
(Python `fnmatch` treats `/` like any other character).  The recipe's four
patterns use no other fnmatch syntax. -/
def fnmatchChars : List Char → List Char → Bool
  | [], [] => true
  | [], _ :: _ => false
  | p :: ps, [] => p == '*' && fnmatchChars ps []
  | p :: ps, c :: cs =>
    if p == '*' then fnmatchChars ps (c :: cs) || fnmatchChars (p :: ps) cs
    else p == c && fnmatchChars ps cs
termination_by pat s => (pat.length, s.length)

/-- fnmatch on strings. -/
def fnmatch (pat s : String) : Bool :=
  fnmatchChars pat.data s.data

/-- A relative path is exported iff some pattern of `exports_sources`
matches it. -/
def isExported (f : String) : Bool :=
  recipeMeta.exports_sources.any (fun p => fnmatch p f)

/-- The export step: from the source tree, seen as a list of
(relative path, byte content) pairs, copy verbatim exactly the files whose
path matches an `exports_sources` pattern. -/
def exportTree (tree : List (String × String)) : List (String × String) :=
  tree.filter (fun fc => isExported fc.1)

/-- The mutable state of a `CMakePackageBuilderConan` instance during a run:
the class-level metadata fields, the folder layout configured by
`cmake_layout(self)`, and `self.cpp_info`. -/
structure ConanState where
  meta : RecipeMeta
  folders_configured : Bool
  cpp_info : CppInfo
deriving Repr, DecidableEq

/-- The recipe state freshly instantiated by Conan. -/
def initialState : ConanState :=
  { meta := recipeMeta, folders_configured := false, cpp_info := defaultCppInfo }

/-- `def layout(self): cmake_layout(self)` (src/conanfile.py lines 15–16):
`cmake_layout` configures `self.folders` and touches nothing else on the
recipe object. -/
def layout_state (s : ConanState) : ConanState :=
  { s with folders_configured := true }

/-- Effect of `generate` on the recipe object: the method constructs local
`CMakeToolchain` and `CMakeDeps` helpers and writes files to disk; it
assigns no attribute of `self`. -/
def generate_state (s : ConanState) : ConanState := s

/-- Effect of `build` on the recipe object: the local `CMake` helper runs
external processes; no attribute of `self` is assigned. -/
def build_state (s : ConanState) : ConanState := s

/-- Effect of `package` on the recipe object: as for `build`, no attribute
of `self` is assigned. -/
def package_state (s : ConanState) : ConanState := s

/-- Effect of `package_info` on the recipe object: it mutates only
`self.cpp_info`, as given by `package_info` above. -/
def package_info_state (s : ConanState) : ConanState :=
  { s with cpp_info := package_info s.cpp_info }

/-- The consumption metadata a packaging run publishes: `none` when the run
aborted, otherwise the package name (the class-level constant) together
with the `cpp_info` produced by `package_info` from the fresh default.
Nothing env-dependent flows into the published data. -/
def publishResult (env : Env) : Option (String × CppInfo) :=
  match (packagingRun env).2 with
  | some _ => none
  | none => some (recipeMeta.name, (package_info_state initialState).cpp_info)

/-- Full characterization of a packaging run: the trace of external
invocations and the propagated diagnostic, by first failing step. -/
theorem packagingRun_eq (env : Env) :
    packagingRun env =
      match env.toolchain_outcome with
      | some d => ([Step.toolchainGenerate], some d)
      | none =>
        match env.deps_outcome with
        | some d => ([Step.toolchainGenerate, Step.depsGenerate], some d)
        | none =>
          match env.configure_outcome with
          | some d =>
            ([Step.toolchainGenerate, Step.depsGenerate, Step.configure], some d)
          | none =>
            match env.build_outcome with
            | some d =>
              ([Step.toolchainGenerate, Step.depsGenerate, Step.configure,
                Step.buildStep], some d)
            | none =>
              ([Step.toolchainGenerate, Step.depsGenerate, Step.configure,
                Step.buildStep, Step.install], env.install_outcome) := by
  rcases env with ⟨t, dp, c, b, i⟩
  cases t <;> cases dp <;> cases c <;> cases b <;> cases i <;> rfl

/-- C1: the claim asserts `package_info` publishes a declared library name
together with the CMake package name.  On the fresh recipe state the
published `libs` list is empty — no library name is declared — refuting
the claim as stated. -/
theorem C1_counterexample :
    ¬ ((package_info_state initialState).cpp_info.libs ≠ [] ∧
       (package_info_state initialState).cpp_info.get_property "cmake_file_name" =
         some "PackageBuilder") := by
  intro h
  exact h.1 rfl

/-- C1 (amended): `package_info` publishes a declared CMake-style package
name ("PackageBuilder"), the find mode ("config") and the build
directories, but declares no library name: `libs` (like `includedirs`) is
left exactly as received, and from the fresh recipe state it is empty. -/
theorem C1_package_info_publishes :
    (∀ c : CppInfo,
      (package_info c).get_property "cmake_file_name" = some "PackageBuilder" ∧
      (package_info c).get_property "cmake_find_mode" = some "config" ∧
      (package_info c).builddirs = ["lib/cmake/PackageBuilder"] ∧
      (package_info c).includedirs = c.includedirs ∧
      (package_info c).libs = c.libs) ∧
    (package_info_state initialState).cpp_info.libs = [] := by
  exact ⟨fun c => ⟨rfl, rfl, rfl, rfl, rfl⟩, rfl⟩

/-- C2: a run of the downstream test recipe succeeds iff the tested
reference resolved and the consumer project configured without error; the
`test` method itself is `pass` and can never fail on its own. -/
theorem C2_test_outcome :
    (∀ env : TestEnv,
      testPackageRun env = true ↔
        (env.resolve_outcome = none ∧ env.configure_outcome = none)) ∧
    test_method = none := by
  refine ⟨fun env => ?_, rfl⟩
  rcases env with ⟨r, c⟩
  cases r <;> cases c <;> simp [testPackageRun, test_method]

/-- C5: whatever `cpp_info` state `package_info` receives, it publishes the
build directory `lib/cmake/PackageBuilder`, CMake find mode `config`, and
CMake file name `PackageBuilder`. -/
theorem C5_find_config_metadata :
    ∀ c : CppInfo,
      (package_info c).builddirs = ["lib/cmake/PackageBuilder"] ∧
      (package_info c).get_property "cmake_find_mode" = some "config" ∧
      (package_info c).get_property "cmake_file_name" = some "PackageBuilder" :=
  fun _ => ⟨rfl, rfl, rfl⟩

/-- C7: any two packaging runs over the same source publish the same
package name and the same library metadata: successful runs publish equal
data, the name is the constant "cmake-package-builder", and the published
`libs` lists coincide. -/
theorem C7_publish_stable :
    ∀ (e₁ e₂ : Env) (p₁ p₂ : String × CppInfo),
      publishResult e₁ = some p₁ → publishResult e₂ = some p₂ →
      p₁ = p₂ ∧ p₁.1 = "cmake-package-builder" ∧ p₁.2.libs = p₂.2.libs := by
  intro e₁ e₂ p₁ p₂ h₁ h₂
  unfold publishResult at h₁ h₂
  rcases hr₁ : (packagingRun e₁).2 with _ | d₁ <;> rw [hr₁] at h₁ <;>
    rcases hr₂ : (packagingRun e₂).2 with _ | d₂ <;> rw [hr₂] at h₂ <;>
      simp at h₁ h₂
  subst h₁; subst h₂
  exact ⟨rfl, rfl, rfl⟩

/-- Witness for C7 at two concrete all-success runs. -/
theorem C7_publish_stable_witness :
    publishResult allOkEnv =
      some (recipeMeta.name, (package_info_state initialState).cpp_info) ∧
    (recipeMeta.name, (package_info_state initialState).cpp_info).1 =
      "cmake-package-builder" :=
  ⟨rfl,
    (C7_publish_stable allOkEnv allOkEnv
      (recipeMeta.name, (package_info_state initialState).cpp_info)
      (recipeMeta.name, (package_info_state initialState).cpp_info)
      rfl rfl).2.1⟩

/-- C3: whenever the external tool fails during configure, build, or
install (the earlier steps having succeeded), the packaging run stops at
exactly that invocation, with the tool's own diagnostic propagated
verbatim as the run outcome: no recipe method catches, retries, or
transforms the error, and nothing further is attempted. -/
theorem C3_failure_propagates :
    ∀ (env : Env) (d : String),
      (env.toolchain_outcome = none → env.deps_outcome = none →
        env.configure_outcome = some d →
        packagingRun env =
          ([Step.toolchainGenerate, Step.depsGenerate, Step.configure], some d)) ∧
      (env.toolchain_outcome = none → env.deps_outcome = none →
        env.configure_outcome = none → env.build_outcome = some d →
        packagingRun env =
          ([Step.toolchainGenerate, Step.depsGenerate, Step.configure,
            Step.buildStep], some d)) ∧
      (env.toolchain_outcome = none → env.deps_outcome = none →
        env.configure_outcome = none → env.build_outcome = none →
        env.install_outcome = some d →
        packagingRun env =
          ([Step.toolchainGenerate, Step.depsGenerate, Step.configure,
            Step.buildStep, Step.install], some d)) := by
  intro env d
  refine ⟨fun h₁ h₂ h₃ => ?_, fun h₁ h₂ h₃ h₄ => ?_, fun h₁ h₂ h₃ h₄ h₅ => ?_⟩ <;>
    rw [packagingRun_eq env] <;> simp [h₁, h₂, h₃] <;> simp_all

/-- Witness for C3: a concrete run whose configure step fails with
diagnostic "boom" aborts at configure and reports exactly "boom". -/
theorem C3_failure_propagates_witness :
    ((Env.mk none none (some "boom") none none).toolchain_outcome = none ∧
     (Env.mk none none (some "boom") none none).deps_outcome = none ∧
     (Env.mk none none (some "boom") none none).configure_outcome = some "boom") ∧
    packagingRun (Env.mk none none (some "boom") none none) =
      ([Step.toolchainGenerate, Step.depsGenerate, Step.configure], some "boom") :=
  ⟨⟨rfl, rfl, rfl⟩,
    (C3_failure_propagates (Env.mk none none (some "boom") none none) "boom").1
      rfl rfl rfl⟩

/-- C4: the `build` lifecycle method invokes exactly configure followed by
build, in that order, blocking on each — the build delegation happens only
after configure returned success, and a configure failure ends the method
with only that invocation performed; the `package` lifecycle method
invokes exactly install. -/
theorem C4_lifecycle_delegations :
    ∀ env : Env,
      (env.configure_outcome = none →
        build env = ([Step.configure, Step.buildStep], env.build_outcome)) ∧
      (∀ d, env.configure_outcome = some d →
        build env = ([Step.configure], some d)) ∧
      package env = ([Step.install], env.install_outcome) := by
  intro env
  refine ⟨fun h => ?_, fun d h => ?_, ?_⟩
  · rcases hb : env.build_outcome with _ | d <;>
      simp [build, execSeq, Env.outcome, h, hb]
  · simp [build, execSeq, Env.outcome, h]
  · rcases hi : env.install_outcome with _ | d <;>
      simp [package, execSeq, Env.outcome, hi]

/-- Witness for C4 at an all-success run. -/
theorem C4_lifecycle_delegations_witness :
    allOkEnv.configure_outcome = none ∧
    build allOkEnv = ([Step.configure, Step.buildStep], allOkEnv.build_outcome) :=
  ⟨rfl, (C4_lifecycle_delegations allOkEnv).1 rfl⟩

/-- C9: the `generate` method performs toolchain generation then
dependency-file generation, each exactly once; in the full packaging run
these generation steps appear at most once, and any configure or build
delegation happens only after both generation steps completed (the trace
then starts toolchain, deps, configure). -/
theorem C9_generate_first :
    ∀ env : Env,
      (env.toolchain_outcome = none → env.deps_outcome = none →
        generate env = ([Step.toolchainGenerate, Step.depsGenerate], none)) ∧
      ((packagingRun env).1.count Step.toolchainGenerate ≤ 1 ∧
       (packagingRun env).1.count Step.depsGenerate ≤ 1) ∧
      (Step.buildStep ∈ (packagingRun env).1 → Step.configure ∈ (packagingRun env).1) ∧
      (Step.configure ∈ (packagingRun env).1 →
        ∃ rest, (packagingRun env).1 =
          Step.toolchainGenerate :: Step.depsGenerate :: Step.configure :: rest) := by
  intro env
  refine ⟨fun h₁ h₂ => ?_, ?_⟩
  · simp [generate, execSeq, Env.outcome, h₁, h₂]
  · rw [packagingRun_eq env]
    rcases env.toolchain_outcome with _ | d₁ <;>
      rcases env.deps_outcome with _ | d₂ <;>
        rcases env.configure_outcome with _ | d₃ <;>
          rcases env.build_outcome with _ | d₄ <;>
            simp [List.count_cons]

/-- Witness for C9 at an all-success run. -/
theorem C9_generate_first_witness :
    (allOkEnv.toolchain_outcome = none ∧ allOkEnv.deps_outcome = none) ∧
    generate allOkEnv = ([Step.toolchainGenerate, Step.depsGenerate], none) :=
  ⟨⟨rfl, rfl⟩, (C9_generate_first allOkEnv).1 rfl rfl⟩

/-- C10: every lifecycle method preserves the class-level metadata fields;
`generate`, `build` and `package` do not assign any recipe attribute;
`layout` touches only the folder configuration; `package_info` mutates only
`cpp_info`, and within it only `builddirs` and the two CMake properties —
`libs`, `includedirs` and every property under any other key are kept. -/
theorem C10_lifecycle_frame :
    ∀ (s : ConanState) (k : String),
      (layout_state s).meta = s.meta ∧
      (layout_state s).cpp_info = s.cpp_info ∧
      generate_state s = s ∧
      build_state s = s ∧
      package_state s = s ∧
      (package_info_state s).meta = s.meta ∧
      (package_info_state s).folders_configured = s.folders_configured ∧
      (package_info_state s).cpp_info.libs = s.cpp_info.libs ∧
      (package_info_state s).cpp_info.includedirs = s.cpp_info.includedirs ∧
      (k ≠ "cmake_find_mode" → k ≠ "cmake_file_name" →
        (package_info_state s).cpp_info.get_property k =
          s.cpp_info.get_property k) := by
  intro s k
  refine ⟨rfl, rfl, rfl, rfl, rfl, rfl, rfl, rfl, rfl, fun hfm hfn => ?_⟩
  have h1 : (k == "cmake_file_name") = false := by simp [hfn]
  have h2 : (k == "cmake_find_mode") = false := by simp [hfm]
  simp [package_info_state, package_info, CppInfo.set_property,
    CppInfo.get_property, List.lookup, h1, h2]

/-- Witness for C10 on the fresh recipe state at a key that is neither of
the two CMake properties. -/
theorem C10_lifecycle_frame_witness :
    ("user.other:key" ≠ "cmake_find_mode" ∧ "user.other:key" ≠ "cmake_file_name") ∧
    (package_info_state initialState).cpp_info.get_property "user.other:key" =
      initialState.cpp_info.get_property "user.other:key" :=
  ⟨⟨by decide, by decide⟩,
    (C10_lifecycle_frame initialState "user.other:key").2.2.2.2.2.2.2.2.2
      (by decide) (by decide)⟩

/-- The single `*` pattern matches every character sequence. -/
theorem fnmatch_star_all : ∀ cs : List Char, fnmatchChars ['*'] cs = true := by
  intro cs
  induction cs with
  | nil => simp [fnmatchChars]
  | cons c cs ih => simp [fnmatchChars, ih]

/-- A star-free pattern followed by `*` matches exactly the sequences it is
a prefix of: `dir/*` matches exactly the paths under `dir/`. -/
theorem fnmatch_trailing_star :
    ∀ (pre cs : List Char), '*' ∉ pre →
      fnmatchChars (pre ++ ['*']) cs = pre.isPrefixOf cs := by
  intro pre
  induction pre with
  | nil => intro cs h; simp [fnmatch_star_all, List.isPrefixOf]
  | cons p ps ih =>
    intro cs h
    simp only [List.mem_cons, not_or] at h
    have hp : (p == '*') = false := by simp [Ne.symm h.1]
    cases cs with
    | nil => simp [fnmatchChars, hp, List.isPrefixOf]
    | cons c cs => simp [fnmatchChars, hp, List.isPrefixOf, ih cs h.2]

/-- A star-free pattern matches exactly itself. -/
theorem fnmatch_literal :
    ∀ (pat cs : List Char), '*' ∉ pat →
      (fnmatchChars pat cs = true ↔ pat = cs) := by
  intro pat
  induction pat with
  | nil => intro cs h; cases cs <;> simp [fnmatchChars]
  | cons p ps ih =>
    intro cs h
    simp only [List.mem_cons, not_or] at h
    have hp : (p == '*') = false := by simp [Ne.symm h.1]
    cases cs with
    | nil => simp [fnmatchChars, hp]
    | cons c cs => simp [fnmatchChars, hp, ih cs h.2]

/-- `cmake/*` matches exactly the paths under `cmake/`. -/
theorem fnmatch_cmake_star (f : String) :
    fnmatch "cmake/*" f = "cmake/".data.isPrefixOf f.data := by
  have h := fnmatch_trailing_star "cmake/".data f.data (by decide)
  simpa [fnmatch] using h

/-- `project-config/*` matches exactly the paths under `project-config/`. -/
theorem fnmatch_projconf_star (f : String) :
    fnmatch "project-config/*" f = "project-config/".data.isPrefixOf f.data := by
  have h := fnmatch_trailing_star "project-config/".data f.data (by decide)
  simpa [fnmatch] using h

/-- A star-free pattern string matches exactly the path equal to it. -/
theorem fnmatch_literal_string (pat f : String) (h : '*' ∉ pat.data) :
    fnmatch pat f = true ↔ pat = f := by
  rw [fnmatch, fnmatch_literal _ _ h]
  exact ⟨fun hd => String.ext hd, fun he => by rw [he]⟩

/-- A path is matched by the `exports_sources` patterns iff it is the
top-level `CMakeLists.txt`, a path under `cmake/`, a path under
`project-config/`, or the `LICENSE` file. -/
theorem isExported_iff (f : String) :
    isExported f = true ↔
      (f = "CMakeLists.txt" ∨ "cmake/".data.isPrefixOf f.data = true ∨
       "project-config/".data.isPrefixOf f.data = true ∨ f = "LICENSE") := by
  simp only [isExported, recipeMeta, List.any_cons, List.any_nil, Bool.or_eq_true]
  rw [fnmatch_cmake_star, fnmatch_projconf_star,
    fnmatch_literal_string "CMakeLists.txt" f (by decide),
    fnmatch_literal_string "LICENSE" f (by decide)]
  constructor
  · rintro (h | h | h | h | h)
    · exact Or.inl h.symm
    · exact Or.inr (Or.inl h)
    · exact Or.inr (Or.inr (Or.inl h))
    · exact Or.inr (Or.inr (Or.inr h.symm))
    · exact absurd h (by simp)
  · rintro (h | h | h | h)
    · exact Or.inl h.symm
    · exact Or.inr (Or.inl h)
    · exact Or.inr (Or.inr (Or.inl h))
    · exact Or.inr (Or.inr (Or.inr (Or.inl h.symm)))

/-- C6: the export step keeps precisely the top-level `CMakeLists.txt`,
the files under `cmake/`, the files under `project-config/`, and the
`LICENSE` file — each carried verbatim from the source tree (same path,
same content), and nothing else. -/
theorem C6_exported_file_set :
    ∀ (tree : List (String × String)) (f c : String),
      ((f, c) ∈ exportTree tree ↔
        ((f, c) ∈ tree ∧
          (f = "CMakeLists.txt" ∨ "cmake/".data.isPrefixOf f.data = true ∨
           "project-config/".data.isPrefixOf f.data = true ∨ f = "LICENSE"))) := by
  intro tree f c
  rw [exportTree, List.mem_filter, isExported_iff]

/-- C8: the export step is a deterministic function of the source tree —
equal trees export to byte-identical file sets — and it is idempotent:
exporting an already-exported tree changes nothing. -/
theorem C8_export_deterministic_idempotent :
    ∀ t₁ t₂ : List (String × String), t₁ = t₂ →
      exportTree t₁ = exportTree t₂ ∧
      exportTree (exportTree t₁) = exportTree t₁ := by
  intro t₁ t₂ h
  subst h
  refine ⟨rfl, ?_⟩
  simp [exportTree, List.filter_filter]

/-- Witness for C8 on a concrete source tree. -/
theorem C8_export_witness :
    (([("CMakeLists.txt", "add_subdirectory(cmake)"), ("README.md", "docs")] :
        List (String × String)) =
      [("CMakeLists.txt", "add_subdirectory(cmake)"), ("README.md", "docs")]) ∧
    (exportTree [("CMakeLists.txt", "add_subdirectory(cmake)"), ("README.md", "docs")] =
       exportTree [("CMakeLists.txt", "add_subdirectory(cmake)"), ("README.md", "docs")] ∧
     exportTree (exportTree
         [("CMakeLists.txt", "add_subdirectory(cmake)"), ("README.md", "docs")]) =
       exportTree [("CMakeLists.txt", "add_subdirectory(cmake)"), ("README.md", "docs")]) :=
  ⟨rfl, C8_export_deterministic_idempotent
    [("CMakeLists.txt", "add_subdirectory(cmake)"), ("README.md", "docs")]
    [("CMakeLists.txt", "add_subdirectory(cmake)"), ("README.md", "docs")] rfl⟩

end CMakePackageBuilder
